import Mathlib

/- Shallow embedding of the A11y overlay content script of the a11y-extension
   frontend (class A11yOverlay): element scanning (captureDomElements),
   selector generation (generateSelector), action execution (executeAction),
   highlight overlay management (highlightElement), the analysis pipeline
   (analyzeCurrentPage, sendToBackend) and panel toggling (togglePanel).

   Modelling conventions: machine floats of getBoundingClientRect are modelled
   as Int (the claims only compare against 0 and the viewport height); computed
   style values are the strings returned by getComputedStyle; absent string
   attributes and properties are Option String with JS truthiness (undefined
   and "" are both falsy); DOM side effects of the executor are recorded in an
   explicit effect record; asynchronous steps that can fail are Except
   parameters. -/

namespace A11y

/-- JS String.prototype.trim on the character list of a string. -/
def jsTrim (s : String) : String :=
  String.mk (((s.data.dropWhile Char.isWhitespace).reverse.dropWhile Char.isWhitespace).reverse)

/-- JS String.prototype.toLowerCase (ASCII case mapping, as used on tag names). -/
def jsToLower (s : String) : String :=
  String.mk (s.data.map Char.toLower)

/-- JS String.prototype.substring(0, n): the first n characters of a string. -/
def jsSubstringTo (n : Nat) (s : String) : String :=
  String.mk (s.data.take n)

/-- JS truthiness of a string-valued attribute or property: absent (undefined
or null) and the empty string are falsy, every other string is truthy. -/
def strTruthy : Option String → Bool
  | none => false
  | some s => !(s == "")

/-- Geometry returned by getBoundingClientRect, in viewport coordinates. -/
structure Rect where
  x : Int
  y : Int
  width : Int
  height : Int
deriving DecidableEq

/-- rect.top of a bounding client rect. -/
def Rect.top (r : Rect) : Int := r.y

/-- rect.bottom of a bounding client rect. -/
def Rect.bottom (r : Rect) : Int := r.y + r.height

/-- The DOM-visible state of one candidate element, exactly the fields read by
captureDomElements and generateSelector: computed style, geometry, the label
sources of the text priority chain, and identity attributes. -/
structure Elem where
  display : String
  visibility : String
  opacity : String
  rect : Rect
  textContent : String
  ariaLabel : Option String
  placeholder : Option String
  value : Option String
  alt : Option String
  title : Option String
  tagName : String
  id : String
  classList : List String
  dataTestid : Option String
  typeAttr : Option String
deriving DecidableEq

/-- The visibility filter of captureDomElements: display not "none",
visibility not "hidden", opacity not the string "0", positive rendered width
and height, and vertical bounds intersecting the viewport. -/
def isVisible (viewportHeight : Int) (e : Elem) : Bool :=
  (e.display != "none") && (e.visibility != "hidden") && (e.opacity != "0") &&
  decide (0 < e.rect.width) && decide (0 < e.rect.height) &&
  decide (e.rect.top < viewportHeight) && decide (0 < e.rect.bottom)

/-- The label priority chain of captureDomElements: trimmed visible text
(substring(0, 100)), else aria-label, else placeholder, else value, else alt,
else title, else the empty string. Only the first branch truncates. -/
def elementText (e : Elem) : String :=
  if jsTrim e.textContent != "" then jsSubstringTo 100 (jsTrim e.textContent)
  else if strTruthy e.ariaLabel then e.ariaLabel.getD ""
  else if strTruthy e.placeholder then e.placeholder.getD ""
  else if strTruthy e.value then e.value.getD ""
  else if strTruthy e.alt then e.alt.getD ""
  else if strTruthy e.title then e.title.getD ""
  else ""

/-- generateSelector: non-empty id wins, else a truthy data-testid attribute,
else the dot-joined class list, else the lowercase tag name. -/
def generateSelector (e : Elem) : String :=
  if e.id != "" then "#" ++ e.id
  else if strTruthy e.dataTestid then "[data-testid=\"" ++ e.dataTestid.getD "" ++ "\"]"
  else if 0 < e.classList.length then "." ++ String.intercalate "." e.classList
  else jsToLower e.tagName

/-- One element descriptor as pushed by captureDomElements. -/
structure Descriptor where
  index : Nat
  tag : String
  text : String
  type : String
  id : String
  classes : List String
  selector : String
  bounds : Rect
deriving DecidableEq

/-- The object literal pushed for a surviving element: the forEach index i,
lowercase tag, extracted text, type (or empty), id, classes, generated
selector, and bounds shifted by the scroll offsets. -/
def buildDescriptor (scrollX scrollY : Int) (i : Nat) (e : Elem) : Descriptor :=
  { index := i
    tag := jsToLower e.tagName
    text := elementText e
    type := e.typeAttr.getD ""
    id := e.id
    classes := e.classList
    selector := generateSelector e
    bounds := { x := e.rect.x + scrollX, y := e.rect.y + scrollY
                width := e.rect.width, height := e.rect.height } }

/-- The forEach body of captureDomElements over the candidate node list,
carrying the forEach index i: an invisible candidate is skipped (early return)
but still advances i, so pushed descriptors carry their position among all
candidates, not among survivors. -/
def scanFrom (viewportHeight scrollX scrollY : Int) : Nat → List Elem → List Descriptor
  | _, [] => []
  | i, e :: rest =>
    if isVisible viewportHeight e then
      buildDescriptor scrollX scrollY i e ::
        scanFrom viewportHeight scrollX scrollY (i + 1) rest
    else
      scanFrom viewportHeight scrollX scrollY (i + 1) rest

/-- All descriptors the forEach accumulates, before the final slice. -/
def allDescriptors (viewportHeight scrollX scrollY : Int) (candidates : List Elem) : List Descriptor :=
  scanFrom viewportHeight scrollX scrollY 0 candidates

/-- captureDomElements: descriptors of the visible candidates in document
order, then elements.slice(0, 50). The candidate list is the
querySelectorAll result for the fixed category selector set. -/
def captureDomElements (viewportHeight scrollX scrollY : Int) (candidates : List Elem) : List Descriptor :=
  (allDescriptors viewportHeight scrollX scrollY candidates).take 50

/-- highlightElement: re-scan, bounds-check the index, resolve the selector
via document.querySelector; returns whether a new highlight box was appended
(it always removes every existing highlight box first; the count evolution is
modelled by OverlayStep below). -/
def highlightElement (viewportHeight scrollX scrollY : Int) (candidates : List Elem)
    (querySelector : String → Option Elem) (elementIndex : Nat) : Bool :=
  if h : elementIndex < (captureDomElements viewportHeight scrollX scrollY candidates).length then
    (querySelector ((captureDomElements viewportHeight scrollX scrollY candidates).get
      ⟨elementIndex, h⟩).selector).isSome
  else false

/-- Observable effects of one executeAction call: whether a highlight box was
added, the selector of a successfully clicked node, the notification text (if
any), whether the 1-second panel-collapse timer was scheduled, and whether an
exception was thrown (and caught). -/
structure ExecEffects where
  highlighted : Bool
  clickedSelector : Option String
  notif : Option String
  collapseScheduled : Bool
  threw : Bool
deriving DecidableEq

/-- executeAction: highlight, re-scan, and when the index is within bounds of
the fresh list resolve the selector and click the node (the click may throw,
modelled by clickThrows); a successful click shows a "Clicked:" notification.
The collapse timer line runs unconditionally at the end of the try block, so
it is reached in every non-throwing path. The catch branch shows the generic
failure notification and never reaches the collapse timer. -/
def executeAction (viewportHeight scrollX scrollY : Int) (candidates : List Elem)
    (querySelector : String → Option Elem) (clickThrows : Elem → Bool)
    (lab : String) (elementIndex : Nat) : ExecEffects :=
  if h : elementIndex < (captureDomElements viewportHeight scrollX scrollY candidates).length then
    match querySelector ((captureDomElements viewportHeight scrollX scrollY candidates).get
        ⟨elementIndex, h⟩).selector with
    | some el =>
      if clickThrows el then
        { highlighted := highlightElement viewportHeight scrollX scrollY candidates querySelector elementIndex
          clickedSelector := none
          notif := some "Failed to execute action"
          collapseScheduled := false
          threw := true }
      else
        { highlighted := highlightElement viewportHeight scrollX scrollY candidates querySelector elementIndex
          clickedSelector := some ((captureDomElements viewportHeight scrollX scrollY candidates).get
            ⟨elementIndex, h⟩).selector
          notif := some ("Clicked: " ++ lab)
          collapseScheduled := true
          threw := false }
    | none =>
      { highlighted := highlightElement viewportHeight scrollX scrollY candidates querySelector elementIndex
        clickedSelector := none
        notif := none
        collapseScheduled := true
        threw := false }
  else
    { highlighted := highlightElement viewportHeight scrollX scrollY candidates querySelector elementIndex
      clickedSelector := none
      notif := none
      collapseScheduled := true
      threw := false }

/-- Highlight box count after one highlightElement call: it first removes
every node with class a11y-highlight-box, then appends one new box exactly
when the indexed descriptor resolved to a live node. -/
def highlightBoxesAfterHighlight (added : Bool) : Nat :=
  if added then 1 else 0

/-- Evolution of the number of a11y-highlight-box nodes in the document: a
highlightElement call (remove all, then maybe add one), the 3-second removal
timer of a previously added box firing (removing at most one node), or any
other operation of the overlay, none of which creates highlight boxes. -/
inductive OverlayStep : Nat → Nat → Prop
  | highlight (n : Nat) (added : Bool) : OverlayStep n (highlightBoxesAfterHighlight added)
  | timerFire (n : Nat) : OverlayStep n (n - 1)
  | untouched (n : Nat) : OverlayStep n n

/-- One suggested action from the backend response (confidence is only
compared against 0.7 when rendering buttons and is not needed here). -/
structure SuggestedAction where
  label : Option String
  description : Option String
  element_index : Option Nat
deriving DecidableEq

/-- The analysis object of the backend response. -/
structure Analysis where
  actions : Option (List SuggestedAction)
deriving DecidableEq

/-- Parsed JSON body of a successful analyze-page response. -/
structure BackendResponse where
  session_id : String
  analysis : Analysis
deriving DecidableEq

/-- The session fields of this.state that analyzeCurrentPage assigns. -/
structure SessionState where
  sessionId : Option String
  currentPage : Option Analysis
  actions : List SuggestedAction
deriving DecidableEq

/-- An HTTP response as seen by sendToBackend: response.ok plus parsed body. -/
structure HttpResponse where
  ok : Bool
  body : BackendResponse
deriving DecidableEq

/-- sendToBackend: a network failure rejects; a non-2xx response (not
response.ok) throws "Backend error"; otherwise the parsed JSON is returned. -/
def sendToBackend (result : Except Unit HttpResponse) : Except Unit BackendResponse :=
  match result with
  | .error _ => .error ()
  | .ok r => if r.ok then .ok r.body else .error ()

/-- The wholesale session replacement performed on a successful response:
session_id, analysis, and analysis.actions (or empty). -/
def replaceSession (resp : BackendResponse) : SessionState :=
  { sessionId := some resp.session_id
    currentPage := some resp.analysis
    actions := resp.analysis.actions.getD [] }

/-- analyzeCurrentPage, restricted to its effect on this.state: the html2canvas
load, the screenshot capture and the backend call run in sequence inside the
try block; any rejection jumps to the catch branch, which touches only the
panel UI and leaves the session fields alone. The three assignments happen
only after sendToBackend resolves. -/
def analyzeCurrentPage (st : SessionState) (loadLib : Except Unit Unit)
    (screenshot : Except Unit String) (httpResult : Except Unit HttpResponse) : SessionState :=
  match loadLib with
  | .error _ => st
  | .ok _ =>
    match screenshot with
    | .error _ => st
    | .ok _ =>
      match sendToBackend httpResult with
      | .error _ => st
      | .ok resp => replaceSession resp

/-- togglePanel: when the panel has the active class it is removed; otherwise
it is added and, when state.currentPage is still null, analyzeCurrentPage is
invoked. Returns the new active flag and whether an analysis was triggered. -/
def togglePanel (panelActive : Bool) (currentPage : Option Analysis) : Bool × Bool :=
  if panelActive then (false, false)
  else (true, currentPage.isNone)

/- Concrete fixtures used by counterexamples and witnesses. -/

/-- A rect well inside a viewport of height 100. -/
def visibleRect : Rect := { x := 5, y := 10, width := 40, height := 20 }

/-- A fully visible, otherwise unremarkable button element. -/
def baseElem : Elem :=
  { display := "block", visibility := "visible", opacity := "1", rect := visibleRect
    textContent := "", ariaLabel := none, placeholder := none, value := none
    alt := none, title := none, tagName := "BUTTON", id := "", classList := []
    dataTestid := none, typeAttr := none }

/-- A visible button labelled by its text content. -/
def visibleButton : Elem := { baseElem with textContent := "Go" }

/-- A candidate with computed display none, dropped by the visibility filter. -/
def hiddenButton : Elem := { baseElem with display := "none", textContent := "Hid" }

/-- A 101-character label (101 times the letter a). -/
def longLabel : String :=
  "aaaaaaaaaaaaaaaaaaaaaaaaaaaaaaaaaaaaaaaaaaaaaaaaaaaaaaaaaaaaaaaaaaaaaaaaaaaaaaaaaaaaaaaaaaaaaaaaaaaaa"

/-- A visible element with no visible text whose label comes from a
101-character aria-label. -/
def ariaOnlyElem : Elem := { baseElem with ariaLabel := some longLabel }

/-- A visible element whose visible text is the 101-character label. -/
def longTextElem : Elem := { baseElem with textContent := longLabel }

/-- An element with a present but empty data-testid attribute and one class. -/
def emptyTestidElem : Elem :=
  { baseElem with dataTestid := some "", classList := ["x"], tagName := "DIV" }

/-- An element with both an id and a class. -/
def idAndClassElem : Elem := { baseElem with id := "a", classList := ["x"] }

/-- A session state holding a previous analysis result. -/
def st0 : SessionState :=
  { sessionId := some "old", currentPage := some { actions := some [] }, actions := [] }

/- Helper lemmas about the scanner. -/

/-- The forEach produces one descriptor per candidate surviving the
visibility filter. -/
theorem scanFrom_length (vh sx sy : Int) (l : List Elem) (i : Nat) :
    (scanFrom vh sx sy i l).length = (l.filter (fun e => isVisible vh e)).length := by
  induction l generalizing i with
  | nil => rfl
  | cons e rest ih =>
    cases hv : isVisible vh e with
    | true => simp [scanFrom, hv, List.filter_cons, ih]
    | false => simp [scanFrom, hv, List.filter_cons, ih]

/-- Every descriptor produced from forEach position i onward carries an index
of at least i. -/
theorem scanFrom_index_ge (vh sx sy : Int) :
    ∀ (l : List Elem) (i : Nat) (d : Descriptor), d ∈ scanFrom vh sx sy i l → i ≤ d.index := by
  intro l
  induction l with
  | nil => intro i d hd; simp [scanFrom] at hd
  | cons e rest ih =>
    intro i d hd
    cases hv : isVisible vh e with
    | true =>
      rw [scanFrom, if_pos hv] at hd
      rcases List.mem_cons.mp hd with hd | hd
      · subst hd; simp [buildDescriptor]
      · exact Nat.le_of_succ_le (ih (i + 1) d hd)
    | false =>
      rw [scanFrom, if_neg (by simp [hv])] at hd
      exact Nat.le_of_succ_le (ih (i + 1) d hd)

/-- A descriptor whose index points at candidate position j (relative to the
starting forEach index i) can only have been pushed for a candidate that
passed the visibility filter. -/
theorem scanFrom_index_visible (vh sx sy : Int) :
    ∀ (l : List Elem) (i : Nat) (d : Descriptor), d ∈ scanFrom vh sx sy i l →
      ∀ (j : Nat) (hj : j < l.length), d.index = i + j →
        isVisible vh (l.get ⟨j, hj⟩) = true := by
  intro l
  induction l with
  | nil => intro i d hd; simp [scanFrom] at hd
  | cons e rest ih =>
    intro i d hd j hj hidx
    cases hv : isVisible vh e with
    | true =>
      rw [scanFrom, if_pos hv] at hd
      rcases List.mem_cons.mp hd with hd | hd
      · have hdi : d.index = i := by subst hd; simp [buildDescriptor]
        cases j with
        | zero => simpa using hv
        | succ jj => omega
      · have hge : i + 1 ≤ d.index := scanFrom_index_ge vh sx sy rest (i + 1) d hd
        cases j with
        | zero => omega
        | succ jj =>
          have hj' : jj < rest.length := by simpa [List.length_cons] using hj
          have := ih (i + 1) d hd jj hj' (by omega)
          simpa using this
    | false =>
      rw [scanFrom, if_neg (by simp [hv])] at hd
      have hge : i + 1 ≤ d.index := scanFrom_index_ge vh sx sy rest (i + 1) d hd
      cases j with
      | zero => omega
      | succ jj =>
        have hj' : jj < rest.length := by simpa [List.length_cons] using hj
        have := ih (i + 1) d hd jj hj' (by omega)
        simpa using this

/-- An element failing any single check of the claim (display none, below the
viewport, hidden, zero opacity, zero width or height) fails the Boolean
visibility filter. -/
theorem hidden_not_visible (vh : Int) (e : Elem)
    (h : e.display = "none" ∨ vh ≤ e.rect.top ∨ e.visibility = "hidden" ∨
      e.opacity = "0" ∨ e.rect.width = 0 ∨ e.rect.height = 0) :
    isVisible vh e = false := by
  cases hv : isVisible vh e with
  | false => rfl
  | true =>
    exfalso
    have hp := hv
    simp only [isVisible, Bool.and_eq_true, bne_iff_ne, ne_eq, decide_eq_true_eq] at hp
    obtain ⟨⟨⟨⟨⟨⟨h1, h2⟩, h3⟩, h4⟩, h5⟩, h6⟩, h7⟩ := hp
    rcases h with h | h | h | h | h | h
    · exact h1 h
    · omega
    · exact h2 h
    · exact h3 h
    · omega
    · omega

/-- substring(0, n) never yields more than n characters. -/
theorem jsSubstringTo_length_le (n : Nat) (s : String) : (jsSubstringTo n s).length ≤ n := by
  show (s.data.take n).length ≤ n
  rw [List.length_take]
  exact Nat.min_le_left n s.data.length

/- Claim theorems. -/

/-- C1: the spec requires descriptor indices to be the sequential positions
among visibility-filter survivors, i.e. 0..N-1. The code instead reuses the
forEach index over all candidates: with a display-none candidate preceding the
only visible one, the single returned descriptor carries index 1, not 0. This
also breaks the code against its own action resolution, which indexes the
fresh descriptor array positionally with element_index. -/
theorem captureDomElements_index_counts_all_candidates :
    (captureDomElements 100 0 0 [hiddenButton, visibleButton]).map Descriptor.index = [1] := by
  decide

/-- C5: the scan returns min(N, 50) descriptors; for N over 50 exactly the
first 50 survivors in encounter order are kept and the remainder silently
dropped, and for N at most 50 the full survivor list is returned. -/
theorem captureDomElements_truncates_to_50 (vh sx sy : Int) (candidates : List Elem) :
    (captureDomElements vh sx sy candidates).length
        = min (candidates.filter (fun e => isVisible vh e)).length 50
      ∧ captureDomElements vh sx sy candidates = (allDescriptors vh sx sy candidates).take 50
      ∧ ((candidates.filter (fun e => isVisible vh e)).length ≤ 50 →
          captureDomElements vh sx sy candidates = allDescriptors vh sx sy candidates)
      ∧ (50 < (candidates.filter (fun e => isVisible vh e)).length →
          (captureDomElements vh sx sy candidates).length = 50) := by
  have hlen : (allDescriptors vh sx sy candidates).length
      = (candidates.filter (fun e => isVisible vh e)).length :=
    scanFrom_length vh sx sy candidates 0
  refine ⟨?_, rfl, ?_, ?_⟩
  · rw [captureDomElements, List.length_take, hlen, Nat.min_comm]
  · intro h
    rw [captureDomElements]
    exact List.take_of_length_le (by rw [hlen]; exact h)
  · intro h
    rw [captureDomElements, List.length_take, hlen]
    omega

/-- Witness for C5 at a concrete two-element DOM with one survivor. -/
theorem captureDomElements_truncates_to_50_witness :
    captureDomElements 100 0 0 [visibleButton, hiddenButton]
      = allDescriptors 100 0 0 [visibleButton, hiddenButton] :=
  (captureDomElements_truncates_to_50 100 0 0 [visibleButton, hiddenButton]).2.2.1 (by decide)

/-- C6: a candidate whose computed display is none, or whose box lies at or
below the viewport bottom, or which is hidden, fully transparent, or has zero
width or height, never appears in the scan output: no returned descriptor was
built at its candidate position. -/
theorem captureDomElements_drops_hidden (vh sx sy : Int) (candidates : List Elem)
    (i : Nat) (hi : i < candidates.length)
    (hhid : (candidates.get ⟨i, hi⟩).display = "none"
      ∨ vh ≤ (candidates.get ⟨i, hi⟩).rect.top
      ∨ (candidates.get ⟨i, hi⟩).visibility = "hidden"
      ∨ (candidates.get ⟨i, hi⟩).opacity = "0"
      ∨ (candidates.get ⟨i, hi⟩).rect.width = 0
      ∨ (candidates.get ⟨i, hi⟩).rect.height = 0) :
    ∀ d ∈ captureDomElements vh sx sy candidates, d.index ≠ i := by
  intro d hd hdi
  have hd' : d ∈ allDescriptors vh sx sy candidates := List.mem_of_mem_take hd
  have hvis : isVisible vh (candidates.get ⟨i, hi⟩) = true :=
    scanFrom_index_visible vh sx sy candidates 0 d hd' i hi (by omega)
  rw [hidden_not_visible vh (candidates.get ⟨i, hi⟩) hhid] at hvis
  exact Bool.false_ne_true hvis

/-- Witness for C6: in a scan of a hidden button followed by a visible one,
the returned descriptor is not the one at the hidden position 0. -/
theorem captureDomElements_drops_hidden_witness :
    (buildDescriptor 0 0 1 visibleButton).index ≠ 0 :=
  captureDomElements_drops_hidden 100 0 0 [hiddenButton, visibleButton] 0 (by decide)
    (Or.inl (by decide)) (buildDescriptor 0 0 1 visibleButton) (by decide)

/-- C10: toggling while hidden with no stored analysis opens the panel and
triggers an analysis; toggling while hidden with a stored analysis only opens
it; toggling while open only closes it and never triggers an analysis. -/
theorem togglePanel_analysis_trigger :
    (∀ cp : Option Analysis, togglePanel true cp = (false, false))
    ∧ togglePanel false none = (true, true)
    ∧ (∀ a : Analysis, togglePanel false (some a) = (true, false)) :=
  ⟨fun _ => rfl, rfl, fun _ => rfl⟩

/-- C8: starting from a document with no highlight box, every sequence of
overlay operations leaves at most one a11y-highlight-box node, because
highlightElement removes all existing boxes before adding one. -/
theorem highlight_box_count_le_one (n : Nat)
    (h : Relation.ReflTransGen OverlayStep 0 n) : n ≤ 1 := by
  induction h with
  | refl => exact Nat.zero_le 1
  | tail hsteps hstep ih =>
    cases hstep with
    | highlight added => cases added <;> simp [highlightBoxesAfterHighlight]
    | timerFire => omega
    | untouched => exact ih

/-- Witness for C8: one box is reachable (a highlight that resolved), and the
bound holds there. -/
theorem highlight_box_count_le_one_witness :
    Relation.ReflTransGen OverlayStep 0 1 ∧ (1 : Nat) ≤ 1 := by
  have hstep : OverlayStep 0 1 := OverlayStep.highlight 0 true
  exact ⟨Relation.ReflTransGen.single hstep,
    highlight_box_count_le_one 1 (Relation.ReflTransGen.single hstep)⟩

/-- C2 counterexample: with an empty fresh descriptor list, executing index 0
ends with no notification at all (and the collapse timer still scheduled), so
no IndexOutOfRange outcome is reported via the notification channel. -/
theorem executeAction_out_of_range_silent :
    (executeAction 100 0 0 [] (fun _ => none) (fun _ => false) "Go" 0).notif = none
    ∧ (executeAction 100 0 0 [] (fun _ => none) (fun _ => false) "Go" 0).collapseScheduled = true := by
  decide

/-- C2 (amended): when the element index is at least the length of the fresh
re-scan list, executeAction does not crash and performs no click, but the
failure is silently ignored: nothing is highlighted, no notification of any
kind is shown, no exception is thrown, and the collapse timer is still
scheduled. -/
theorem executeAction_out_of_range (vh sx sy : Int) (candidates : List Elem)
    (querySelector : String → Option Elem) (clickThrows : Elem → Bool)
    (lab : String) (elementIndex : Nat)
    (h : (captureDomElements vh sx sy candidates).length ≤ elementIndex) :
    executeAction vh sx sy candidates querySelector clickThrows lab elementIndex =
      { highlighted := false, clickedSelector := none, notif := none,
        collapseScheduled := true, threw := false } := by
  have hnot : ¬ elementIndex < (captureDomElements vh sx sy candidates).length :=
    Nat.not_lt.mpr h
  rw [executeAction, dif_neg hnot, highlightElement, dif_neg hnot]

/-- Witness for C2 (amended) at a concrete empty DOM and index 1. -/
theorem executeAction_out_of_range_witness :
    executeAction 100 0 0 [] (fun _ => none) (fun _ => false) "Go" 1 =
      { highlighted := false, clickedSelector := none, notif := none,
        collapseScheduled := true, threw := false } :=
  executeAction_out_of_range 100 0 0 [] (fun _ => none) (fun _ => false) "Go" 1 (by decide)

/-- C3 counterexample: when the selector of the indexed descriptor resolves to
no node, no click is performed, yet the panel collapse is still scheduled, so
collapse is not equivalent to a successful click. -/
theorem executeAction_collapses_without_click :
    (executeAction 100 0 0 [visibleButton] (fun _ => none) (fun _ => false) "Go" 0).clickedSelector
        = none
    ∧ (executeAction 100 0 0 [visibleButton] (fun _ => none) (fun _ => false) "Go" 0).collapseScheduled
        = true := by
  decide

/-- C3 (amended): the 1-second panel collapse is scheduled after every
execution that does not throw, including out-of-range and
selector-not-found failures; it is skipped exactly when an exception is
thrown and caught. -/
theorem executeAction_collapse_iff_not_thrown (vh sx sy : Int) (candidates : List Elem)
    (querySelector : String → Option Elem) (clickThrows : Elem → Bool)
    (lab : String) (elementIndex : Nat) :
    (executeAction vh sx sy candidates querySelector clickThrows lab elementIndex).collapseScheduled
      = !(executeAction vh sx sy candidates querySelector clickThrows lab elementIndex).threw := by
  rw [executeAction]
  split
  · split
    · split <;> rfl
    · rfl
  · rfl

/-- C4 counterexample: a scan of an element labelled only by a 101-character
aria-label returns a descriptor whose text field has 101 characters. -/
theorem scan_text_can_exceed_100 :
    (captureDomElements 100 0 0 [ariaOnlyElem]).all (fun d => decide (d.text.length ≤ 100))
      = false := by
  decide

/-- C4 (amended): the 100-character truncation applies only when the label
comes from the visible-text source; labels supplied by aria-label,
placeholder, value, alt or title are used untruncated. -/
theorem elementText_textContent_truncated (e : Elem) (h : jsTrim e.textContent ≠ "") :
    (elementText e).length ≤ 100 := by
  have hb : (jsTrim e.textContent != "") = true := bne_iff_ne.mpr h
  rw [elementText, if_pos (by rw [hb])]
  exact jsSubstringTo_length_le 100 (jsTrim e.textContent)

/-- Witness for C4 (amended): a 101-character visible text is cut to at most
100 characters. -/
theorem elementText_textContent_truncated_witness :
    (elementText longTextElem).length ≤ 100 :=
  elementText_textContent_truncated longTextElem (by decide)

/-- C7 counterexample: an element carrying a data-testid attribute whose value
is the empty string falls through to its class list, contradicting the claim
that any node with a data-testid attribute yields the bracketed selector. -/
theorem generateSelector_empty_data_testid :
    generateSelector emptyTestidElem = ".x"
    ∧ generateSelector emptyTestidElem ≠ "[data-testid=\"\"]" := by
  decide

/-- C7 (amended): first match wins in the priority chain: a non-empty id
yields the id selector (even when classes are present), else a data-testid
attribute with a non-empty value yields the bracketed attribute selector,
else a non-empty class list yields the dot-joined classes, else the lowercase
tag name. -/
theorem generateSelector_priority (e : Elem) :
    (e.id ≠ "" → generateSelector e = "#" ++ e.id)
    ∧ (e.id = "" → strTruthy e.dataTestid = true →
        generateSelector e = "[data-testid=\"" ++ e.dataTestid.getD "" ++ "\"]")
    ∧ (e.id = "" → strTruthy e.dataTestid = false → 0 < e.classList.length →
        generateSelector e = "." ++ String.intercalate "." e.classList)
    ∧ (e.id = "" → strTruthy e.dataTestid = false → e.classList.length = 0 →
        generateSelector e = jsToLower e.tagName) := by
  refine ⟨?_, ?_, ?_, ?_⟩
  · intro h1
    have hb : (e.id != "") = true := bne_iff_ne.mpr h1
    rw [generateSelector, if_pos (by rw [hb])]
  · intro h1 h2
    simp [generateSelector, h1, h2]
  · intro h1 h2 h3
    simp [generateSelector, h1, h2, h3]
  · intro h1 h2 h3
    simp [generateSelector, h1, h2, h3]

/-- Witness for C7 (amended): with both an id and a class present the id
wins. -/
theorem generateSelector_priority_witness :
    generateSelector idAndClassElem = "#" ++ idAndClassElem.id :=
  (generateSelector_priority idAndClassElem).1 (by decide)

/-- C9: if the html2canvas load, the screenshot capture or the backend call
(network failure or non-2xx) fails, the session fields sessionId, currentPage
and actions are left exactly as before; they are replaced wholesale exactly on
a successful backend response. -/
theorem analyzeCurrentPage_state_on_error (st : SessionState) (loadLib : Except Unit Unit)
    (screenshot : Except Unit String) (httpResult : Except Unit HttpResponse) :
    ((loadLib = .error () ∨ screenshot = .error () ∨ sendToBackend httpResult = .error ()) →
        analyzeCurrentPage st loadLib screenshot httpResult = st)
    ∧ (∀ resp : BackendResponse, loadLib = .ok () → screenshot ≠ .error () →
        sendToBackend httpResult = .ok resp →
        analyzeCurrentPage st loadLib screenshot httpResult = replaceSession resp) := by
  cases loadLib with
  | error u =>
    cases u
    refine ⟨fun _ => rfl, fun resp hok _ _ => ?_⟩
    simp at hok
  | ok u =>
    cases u
    cases screenshot with
    | error u2 =>
      cases u2
      refine ⟨fun _ => rfl, fun resp _ hs _ => absurd rfl hs⟩
    | ok s =>
      cases hsb : sendToBackend httpResult with
      | error u3 =>
        refine ⟨fun _ => ?_, fun resp _ _ hok => ?_⟩
        · simp [analyzeCurrentPage, hsb]
        · simp at hok
      | ok resp0 =>
        refine ⟨fun habs => ?_, fun resp _ _ hok => ?_⟩
        · rcases habs with habs | habs | habs
          · simp at habs
          · simp at habs
          · simp at habs
        · obtain rfl : resp0 = resp := by injection hok
          simp [analyzeCurrentPage, hsb]

/-- Witness for C9: a failed html2canvas load leaves a stored session
untouched. -/
theorem analyzeCurrentPage_state_on_error_witness :
    analyzeCurrentPage st0 (Except.error ()) (Except.ok "img") (Except.error ()) = st0 :=
  (analyzeCurrentPage_state_on_error st0 (Except.error ()) (Except.ok "img")
    (Except.error ())).1 (Or.inl rfl)

end A11y
